import Mathlib

/-!
Shallow embedding of the cryptographic core of the SAE messenger
(src/ratchet.rs, src/padding.rs, src/identity.rs) and proofs about it.

Machine integers are modelled as `Nat` with explicit reduction modulo
`2^w` wherever the Rust code relies on fixed-width arithmetic. Byte
strings are `List Nat` whose elements are bytes (values `< 256`) by
construction. The external crates the source calls into
(`hkdf`/`sha2`, `chacha20poly1305`) are embedded bit-for-bit from their
RFCs (RFC 6234 SHA-256, RFC 2104 HMAC, RFC 5869 HKDF, RFC 8439
ChaCha20-Poly1305) so that the ratchet can be evaluated on concrete
inputs exactly as the program would run.
-/

namespace SAE

/-! ## 32-bit word primitives over Nat -/

/-- Reduce to a 32-bit word. -/
def w32 (n : Nat) : Nat := n % 4294967296

/-- 32-bit wrapping addition. -/
def add32 (a b : Nat) : Nat := (a + b) % 4294967296

/-- Rotate a 32-bit word right by `n` places. -/
def rotr32 (x n : Nat) : Nat := ((x >>> n) ||| (x <<< (32 - n))) % 4294967296

/-- Rotate a 32-bit word left by `n` places. -/
def rotl32 (x n : Nat) : Nat := ((x <<< n) ||| (x >>> (32 - n))) % 4294967296

/-- Value of a byte list read little-endian. -/
def fromLE (l : List Nat) : Nat := l.foldr (fun b acc => b + 256 * acc) 0

/-- The `k`-byte little-endian encoding of `n % 2^(8*k)`. -/
def leBytes : Nat → Nat → List Nat
  | 0, _ => []
  | k + 1, n => n % 256 :: leBytes k (n / 256)

/-- The `k`-byte big-endian encoding of `n % 2^(8*k)`. -/
def beBytes : Nat → Nat → List Nat
  | 0, _ => []
  | k + 1, n => beBytes k (n / 256) ++ [n % 256]

/-! ## SHA-256 (as implemented by the `sha2` crate, RFC 6234) -/

/-- SHA-256 round constants. -/
def sha256K : List Nat :=
  [1116352408, 1899447441, 3049323471, 3921009573, 961987163, 1508970993,
   2453635748, 2870763221, 3624381080, 310598401, 607225278, 1426881987,
   1925078388, 2162078206, 2614888103, 3248222580, 3835390401, 4022224774,
   264347078, 604807628, 770255983, 1249150122, 1555081692, 1996064986,
   2554220882, 2821834349, 2952996808, 3210313671, 3336571891, 3584528711,
   113926993, 338241895, 666307205, 773529912, 1294757372, 1396182291,
   1695183700, 1986661051, 2177026350, 2456956037, 2730485921, 2820302411,
   3259730800, 3345764771, 3516065817, 3600352804, 4094571909, 275423344,
   430227734, 506948616, 659060556, 883997877, 958139571, 1322822218,
   1537002063, 1747873779, 1955562222, 2024104815, 2227730452, 2361852424,
   2428436474, 2756734187, 3204031479, 3329325298]

/-- SHA-256 initial hash value. -/
def sha256IV : List Nat :=
  [1779033703, 3144134277, 1013904242, 2773480762,
   1359893119, 2600822924, 528734635, 1541459225]

/-- Group a byte list into 32-bit words, big-endian. -/
def bytesToWordsBE : List Nat → List Nat
  | b0 :: b1 :: b2 :: b3 :: rest =>
      (((b0 * 256 + b1) * 256 + b2) * 256 + b3) :: bytesToWordsBE rest
  | _ => []

/-- σ0 message-schedule function. -/
def ssig0 (x : Nat) : Nat := Nat.xor (rotr32 x 7) (Nat.xor (rotr32 x 18) (x >>> 3))

/-- σ1 message-schedule function. -/
def ssig1 (x : Nat) : Nat := Nat.xor (rotr32 x 17) (Nat.xor (rotr32 x 19) (x >>> 10))

/-- Σ0 compression function. -/
def bsig0 (x : Nat) : Nat := Nat.xor (rotr32 x 2) (Nat.xor (rotr32 x 13) (rotr32 x 22))

/-- Σ1 compression function. -/
def bsig1 (x : Nat) : Nat := Nat.xor (rotr32 x 6) (Nat.xor (rotr32 x 11) (rotr32 x 25))

/-- Choice function: for each bit, `e` selects between `f` and `g`. -/
def chWord (e f g : Nat) : Nat :=
  Nat.xor (Nat.land e f) (Nat.land (Nat.xor e 4294967295) g)

/-- Majority function, bitwise. -/
def majWord (a b c : Nat) : Nat :=
  Nat.xor (Nat.land a b) (Nat.xor (Nat.land a c) (Nat.land b c))

/-- Append the next word of the SHA-256 message schedule. -/
def schedStep (ws : List Nat) : List Nat :=
  let t := ws.length
  ws ++ [add32 (add32 (ssig1 (ws.getD (t - 2) 0)) (ws.getD (t - 7) 0))
               (add32 (ssig0 (ws.getD (t - 15) 0)) (ws.getD (t - 16) 0))]

/-- Extend a 16-word block to the full 64-word schedule. -/
def schedule (ws : List Nat) : List Nat :=
  (List.range 48).foldl (fun acc _ => schedStep acc) ws

/-- Working state of the SHA-256 compression loop. -/
structure Sha256State where
  a : Nat
  b : Nat
  c : Nat
  d : Nat
  e : Nat
  f : Nat
  g : Nat
  h : Nat
  deriving Repr, DecidableEq

/-- One SHA-256 compression round with constant `k` and schedule word `w`. -/
def sha256Round (st : Sha256State) (k w : Nat) : Sha256State :=
  let t1 := add32 st.h (add32 (bsig1 st.e) (add32 (chWord st.e st.f st.g) (add32 k w)))
  let t2 := add32 (bsig0 st.a) (majWord st.a st.b st.c)
  ⟨add32 t1 t2, st.a, st.b, st.c, add32 st.d t1, st.e, st.f, st.g⟩

/-- Compress one 64-byte block into the running 8-word hash value. -/
def sha256Compress (hv : List Nat) (block : List Nat) : List Nat :=
  let ws := schedule (bytesToWordsBE block)
  let init : Sha256State :=
    ⟨hv.getD 0 0, hv.getD 1 0, hv.getD 2 0, hv.getD 3 0,
     hv.getD 4 0, hv.getD 5 0, hv.getD 6 0, hv.getD 7 0⟩
  let st := (List.zip sha256K ws).foldl (fun st kw => sha256Round st kw.1 kw.2) init
  [add32 (hv.getD 0 0) st.a, add32 (hv.getD 1 0) st.b,
   add32 (hv.getD 2 0) st.c, add32 (hv.getD 3 0) st.d,
   add32 (hv.getD 4 0) st.e, add32 (hv.getD 5 0) st.f,
   add32 (hv.getD 6 0) st.g, add32 (hv.getD 7 0) st.h]

/-- SHA-256 padding: append `0x80`, zeros to 56 mod 64, and the 64-bit
big-endian bit length. -/
def sha256Pad (msg : List Nat) : List Nat :=
  let len := msg.length
  let zeros := (64 + 55 - len % 64) % 64
  msg ++ [128] ++ List.replicate zeros 0 ++ beBytes 8 (len * 8)

/-- Split a byte list into 64-byte chunks (fuel-driven structural recursion). -/
def chunk64 : Nat → List Nat → List (List Nat)
  | 0, _ => []
  | _, [] => []
  | fuel + 1, l => l.take 64 :: chunk64 fuel (l.drop 64)

/-- SHA-256 of a byte list, as a 32-byte list. -/
def sha256 (msg : List Nat) : List Nat :=
  let padded := sha256Pad msg
  let blocks := chunk64 (padded.length + 1) padded
  ((blocks.foldl sha256Compress sha256IV).map (beBytes 4)).flatten

/-! ## HMAC-SHA256 (RFC 2104) and HKDF (RFC 5869, the `hkdf` crate) -/

/-- HMAC-SHA256 with a 64-byte block size. -/
def hmacSha256 (key msg : List Nat) : List Nat :=
  let k0 := if 64 < key.length then sha256 key else key
  let kp := k0 ++ List.replicate (64 - k0.length) 0
  let ipad := kp.map (fun b => Nat.xor b 54)
  let opad := kp.map (fun b => Nat.xor b 92)
  sha256 (opad ++ sha256 (ipad ++ msg))

/-- HKDF-Extract with the all-zero 32-byte salt, which is what
`Hkdf::<Sha256>::new(None, ikm)` uses. -/
def hkdfExtract (ikm : List Nat) : List Nat :=
  hmacSha256 (List.replicate 32 0) ikm

/-- HKDF-Expand to 32 bytes of output keying material. -/
def hkdfExpand32 (prk info : List Nat) : List Nat :=
  hmacSha256 prk (info ++ [1])

/-- HKDF-Expand to 64 bytes of output keying material. -/
def hkdfExpand64 (prk info : List Nat) : List Nat :=
  let t1 := hmacSha256 prk (info ++ [1])
  t1 ++ hmacSha256 prk (t1 ++ info ++ [2])

/-- `Hkdf::<Sha256>::new(None, ikm).expand(info, okm)` for 32-byte output. -/
def hkdf32 (ikm info : List Nat) : List Nat :=
  hkdfExpand32 (hkdfExtract ikm) info

/-- `Hkdf::<Sha256>::new(None, ikm).expand(info, okm)` for 64-byte output. -/
def hkdf64 (ikm info : List Nat) : List Nat :=
  hkdfExpand64 (hkdfExtract ikm) info

/-! ## ChaCha20-Poly1305 (RFC 8439, the `chacha20poly1305` crate) -/

/-- Group a byte list into 32-bit words, little-endian. -/
def bytesToWordsLE : List Nat → List Nat
  | b0 :: b1 :: b2 :: b3 :: rest =>
      (b0 + 256 * (b1 + 256 * (b2 + 256 * b3))) :: bytesToWordsLE rest
  | _ => []

/-- The initial ChaCha20 state for a 32-byte key, block counter and
12-byte nonce. -/
def chachaInit (key : List Nat) (counter : Nat) (nonce : List Nat) : List Nat :=
  [1634760805, 857760878, 2036477234, 1797285236] ++
    bytesToWordsLE key ++ [w32 counter] ++ bytesToWordsLE nonce

/-- The ChaCha20 quarter round on state positions `a b c d`. -/
def qround (st : List Nat) (a b c d : Nat) : List Nat :=
  let sa := add32 (st.getD a 0) (st.getD b 0)
  let sd := rotl32 (Nat.xor (st.getD d 0) sa) 16
  let sc := add32 (st.getD c 0) sd
  let sb := rotl32 (Nat.xor (st.getD b 0) sc) 12
  let sa2 := add32 sa sb
  let sd2 := rotl32 (Nat.xor sd sa2) 8
  let sc2 := add32 sc sd2
  let sb2 := rotl32 (Nat.xor sb sc2) 7
  ((((st.set a sa2).set b sb2).set c sc2).set d sd2)

/-- One ChaCha20 double round (four column rounds, four diagonal rounds). -/
def doubleRound (st : List Nat) : List Nat :=
  let s1 := qround (qround (qround (qround st 0 4 8 12) 1 5 9 13) 2 6 10 14) 3 7 11 15
  qround (qround (qround (qround s1 0 5 10 15) 1 6 11 12) 2 7 8 13) 3 4 9 14

/-- The ChaCha20 block function: 10 double rounds plus the feed-forward. -/
def chachaCore (st : List Nat) : List Nat :=
  let wrk := (List.range 10).foldl (fun s _ => doubleRound s) st
  List.zipWith add32 wrk st

/-- The 64-byte keystream block for `(key, counter, nonce)`. -/
def chachaBlockBytes (key : List Nat) (counter : Nat) (nonce : List Nat) : List Nat :=
  ((chachaCore (chachaInit key counter nonce)).map (leBytes 4)).flatten

/-- XOR `data` against the ChaCha20 keystream starting at block `counter`
(fuel-driven structural recursion; fuel bounds the number of blocks). -/
def chachaEncrypt : Nat → List Nat → Nat → List Nat → List Nat → List Nat
  | 0, _, _, _, _ => []
  | _, _, _, _, [] => []
  | fuel + 1, key, counter, nonce, data =>
      List.zipWith Nat.xor (data.take 64) (chachaBlockBytes key counter nonce) ++
        chachaEncrypt fuel key (counter + 1) nonce (data.drop 64)

/-- The Poly1305 prime `2^130 - 5`. -/
def polyP : Nat := 1361129467683753853853498429727072845819

/-- Accumulate Poly1305 blocks (fuel-driven structural recursion). -/
def polyBlocks : Nat → Nat → Nat → List Nat → Nat
  | 0, _, acc, _ => acc
  | _, _, acc, [] => acc
  | fuel + 1, r, acc, msg =>
      polyBlocks fuel r ((acc + fromLE (msg.take 16 ++ [1])) * r % polyP) (msg.drop 16)

/-- The Poly1305 MAC of `msg` under a 32-byte one-time key. -/
def poly1305 (key msg : List Nat) : List Nat :=
  let r := Nat.land (fromLE (key.take 16)) 21267647620597763993911028882763415551
  let s := fromLE (key.drop 16)
  leBytes 16 ((polyBlocks (msg.length + 1) r 0 msg + s) % 340282366920938463463374607431768211456)

/-- Zero padding to the next 16-byte boundary. -/
def pad16 (l : List Nat) : List Nat :=
  List.replicate ((16 - l.length % 16) % 16) 0

/-- The Poly1305 input for the ChaCha20-Poly1305 construction with empty
associated data (the program never passes AAD). -/
def macData (ct : List Nat) : List Nat :=
  ct ++ pad16 ct ++ leBytes 8 0 ++ leBytes 8 ct.length

/-- ChaCha20-Poly1305 encryption (`cipher.encrypt`): ciphertext followed by
the 16-byte tag. -/
def chachaPolySeal (key nonce pt : List Nat) : List Nat :=
  let otk := (chachaBlockBytes key 0 nonce).take 32
  let ct := chachaEncrypt (pt.length + 1) key 1 nonce pt
  ct ++ poly1305 otk (macData ct)

/-- ChaCha20-Poly1305 decryption (`cipher.decrypt`): authenticate the tag,
then decrypt; `none` is the crate's `Err(aead::Error)`. -/
def chachaPolyOpen (key nonce ctag : List Nat) : Option (List Nat) :=
  if ctag.length < 16 then none
  else
    let ct := ctag.take (ctag.length - 16)
    let tag := ctag.drop (ctag.length - 16)
    let otk := (chachaBlockBytes key 0 nonce).take 32
    if poly1305 otk (macData ct) = tag then
      some (chachaEncrypt (ct.length + 1) key 1 nonce ct)
    else none

/-! ## 64-bit arithmetic as Rust release builds perform it -/

/-- 2^64. -/
def U64MOD : Nat := 18446744073709551616

/-- Wrapping u64 addition. -/
def u64add (a b : Nat) : Nat := (a + b) % U64MOD

/-- Wrapping u64 subtraction, as `a - b` compiles in a release build. -/
def u64sub (a b : Nat) : Nat := (a % U64MOD + U64MOD - b % U64MOD) % U64MOD

/-! ## The ratchet (src/ratchet.rs) -/

/-- `HKDF_INFO_SEND`, the bytes of `"sae-ratchet-send"`. -/
def HKDF_INFO_SEND : List Nat :=
  [115, 97, 101, 45, 114, 97, 116, 99, 104, 101, 116, 45, 115, 101, 110, 100]

/-- `HKDF_INFO_RECV`, the bytes of `"sae-ratchet-recv"`. -/
def HKDF_INFO_RECV : List Nat :=
  [115, 97, 101, 45, 114, 97, 116, 99, 104, 101, 116, 45, 114, 101, 99, 118]

/-- The `derive_key` info label, the bytes of `"sae-ratchet-kdf"`. -/
def KDF_INFO : List Nat :=
  [115, 97, 101, 45, 114, 97, 116, 99, 104, 101, 116, 45, 107, 100, 102]

/-- `MAX_SKIP`. -/
def MAX_SKIP : Nat := 100

/-- The errors of `ratchet.rs`. -/
inductive RatchetError where
  | encryptionFailed
  | decryptionFailed
  | invalidMessage
  | invalidTimestamp
  | messageTooOld
  | messageAlreadyReceived
  | tooManySkippedMessages
  deriving Repr, DecidableEq

/-- `RatchetMessage`: counter, ciphertext and timestamp. -/
structure RatchetMessage where
  counter : Nat
  ciphertext : List Nat
  timestamp : Nat
  deriving Repr, DecidableEq

/-- `RatchetSession` state. -/
structure RatchetSession where
  sendChainKey : List Nat
  recvChainKey : List Nat
  sendCount : Nat
  recvCount : Nat
  skippedKeys : List (List Nat × Nat)
  deriving Repr, DecidableEq

/-- `RatchetSession::new`: derive the two initial chain keys by HKDF-SHA256
over the shared secret with the two fixed info labels. -/
def RatchetSession.new (sharedSecret : List Nat) : RatchetSession :=
  { sendChainKey := hkdf32 sharedSecret HKDF_INFO_SEND
    recvChainKey := hkdf32 sharedSecret HKDF_INFO_RECV
    sendCount := 0
    recvCount := 0
    skippedKeys := [] }

/-- `derive_key`: expand a chain key into a message key and the next chain
key (first and second 32 bytes of a 64-byte HKDF output). -/
def deriveKey (chainKey : List Nat) : List Nat × List Nat :=
  let out := hkdf64 chainKey KDF_INFO
  (out.take 32, out.drop 32)

/-- `generate_nonce`: 4 zero bytes followed by the counter, little-endian. -/
def generateNonce (counter : Nat) : List Nat :=
  [0, 0, 0, 0] ++ leBytes 8 counter

/-- `decrypt_with_key`: ChaCha20-Poly1305 with the nonce derived from the
message counter; `none` is the crate's authentication failure. -/
def decryptWithKey (key : List Nat) (message : RatchetMessage) : Option (List Nat) :=
  chachaPolyOpen key (generateNonce message.counter) message.ciphertext

/-- `RatchetSession::encrypt` at current time `now`. The crate's `encrypt`
on an in-memory buffer cannot fail, so the message is returned directly
together with the advanced session. -/
def RatchetSession.encrypt (s : RatchetSession) (now : Nat) (plaintext : List Nat) :
    RatchetMessage × RatchetSession :=
  let mk := deriveKey s.sendChainKey
  let ciphertext := chachaPolySeal mk.1 (generateNonce s.sendCount) plaintext
  ({ counter := s.sendCount, ciphertext := ciphertext, timestamp := now },
   { s with sendChainKey := mk.2, sendCount := s.sendCount + 1 })

/-- The skipped-key loop of `decrypt`: derive `n` message keys starting at
counter `start`, returning them in push order with the final chain key. -/
def skipKeys (chainKey : List Nat) (start : Nat) : Nat → List (List Nat × Nat) × List Nat
  | 0 => ([], chainKey)
  | n + 1 =>
      let mk := deriveKey chainKey
      let rest := skipKeys mk.2 (start + 1) n
      ((mk.1, start) :: rest.1, rest.2)

/-- `RatchetSession::decrypt` at current time `now`: returns the result and
the session as the call leaves it. The two timestamp guards use u64
arithmetic exactly as a release build evaluates them. -/
def RatchetSession.decrypt (s : RatchetSession) (now : Nat) (message : RatchetMessage) :
    Except RatchetError (List Nat) × RatchetSession :=
  if u64add now 60 < message.timestamp then (.error .invalidTimestamp, s)
  else if 300 < u64sub now message.timestamp then (.error .messageTooOld, s)
  else if message.counter = s.recvCount then
    let mk := deriveKey s.recvChainKey
    match decryptWithKey mk.1 message with
    | none => (.error .decryptionFailed, s)
    | some pt => (.ok pt, { s with recvChainKey := mk.2, recvCount := s.recvCount + 1 })
  else if s.recvCount < message.counter then
    let skipCount := message.counter - s.recvCount
    if MAX_SKIP < skipCount then (.error .tooManySkippedMessages, s)
    else
      let sk := skipKeys s.recvChainKey s.recvCount skipCount
      let s1 := { s with skippedKeys := s.skippedKeys ++ sk.1 }
      let mk := deriveKey sk.2
      match decryptWithKey mk.1 message with
      | none => (.error .decryptionFailed, s1)
      | some pt => (.ok pt, { s1 with recvChainKey := mk.2, recvCount := message.counter + 1 })
  else
    match s.skippedKeys.findIdx? (fun kc => kc.2 == message.counter) with
    | some pos =>
        let key := (s.skippedKeys.getD pos ([], 0)).1
        let s1 := { s with skippedKeys := s.skippedKeys.eraseIdx pos }
        match decryptWithKey key message with
        | none => (.error .decryptionFailed, s1)
        | some pt => (.ok pt, s1)
    | none => (.error .messageAlreadyReceived, s)

/-- `RatchetMessage::to_bytes`: counter (8B LE), timestamp (8B LE),
ciphertext length as u32 (4B LE), ciphertext. -/
def RatchetMessage.toBytes (m : RatchetMessage) : List Nat :=
  leBytes 8 m.counter ++ leBytes 8 m.timestamp ++
    leBytes 4 m.ciphertext.length ++ m.ciphertext

/-- `RatchetMessage::from_bytes`. -/
def RatchetMessage.fromBytes (bytes : List Nat) : Except RatchetError RatchetMessage :=
  if bytes.length < 20 then .error .invalidMessage
  else
    let counter := fromLE (bytes.take 8)
    let timestamp := fromLE ((bytes.drop 8).take 8)
    let length := fromLE ((bytes.drop 16).take 4)
    if bytes.length < 20 + length then .error .invalidMessage
    else .ok { counter := counter
               ciphertext := (bytes.drop 20).take length
               timestamp := timestamp }

/-! ## Padding (src/padding.rs) -/

/-- `PADDING_BLOCKS`. -/
def PADDING_BLOCKS : List Nat := [128, 256, 512, 1024, 2048, 4096]

/-- The padding error of `padding.rs`. -/
inductive PaddingError where
  | invalidPadding
  deriving Repr, DecidableEq

/-- The padded size `add_padding` selects: the first block in
`PADDING_BLOCKS` at least `len + 2`, otherwise `len + 2` rounded up to a
multiple of 4096. -/
def paddedSize (originalLen : Nat) : Nat :=
  (PADDING_BLOCKS.find? (fun size => originalLen + 2 ≤ size)).getD
    ((originalLen + 2 + 4095) / 4096 * 4096)

/-- `add_padding`, with the random filler supplied by `rng` (one byte per
index, as `OsRng` supplies one per `rng.gen()` call). The function's only
exit without a value is the `panic!` on oversized input, modelled as
`none`. -/
def add_padding (rng : Nat → Nat) (data : List Nat) : Option (List Nat) :=
  let originalLen := data.length
  let size := paddedSize originalLen
  let paddingLen := size - originalLen - 2
  if 65535 < originalLen then none
  else some (leBytes 2 originalLen ++ data ++ (List.range paddingLen).map (fun i => rng i % 256))

/-- `remove_padding`. -/
def remove_padding (paddedData : List Nat) : Except PaddingError (List Nat) :=
  if paddedData.length < 2 then .error .invalidPadding
  else
    let originalLen := paddedData.getD 0 0 + 256 * paddedData.getD 1 0
    if paddedData.length < originalLen + 2 then .error .invalidPadding
    else .ok ((paddedData.drop 2).take originalLen)

/-! ## Identity and the authenticated handshake (src/identity.rs)

The Ed25519 primitives live in the external `ed25519_dalek` crate; they
are abstracted as a structure of operations so that `verify` can be
stated for every implementation of them. `Signature::from_bytes` on a
64-byte array is infallible in that crate, while parsing a verifying key
can reject an invalid point encoding. -/

/-- The operations `identity.rs` uses from `ed25519_dalek`, over an
abstract verifying-key type `K`. -/
structure Ed25519Api (K : Type) where
  parseVerifyingKey : List Nat → Option K
  verify : K → List Nat → List Nat → Bool

/-- The signature errors of `identity.rs`. -/
inductive SignatureError where
  | invalidSignature
  | invalidPublicKey
  deriving Repr, DecidableEq

/-- `AuthenticatedHandshake` wire value. -/
structure AuthenticatedHandshake where
  x25519PublicKey : List Nat
  ed25519PublicKey : List Nat
  signature : List Nat
  deriving Repr, DecidableEq

/-- `verify_signature`: `Ok` exactly when the crate's `verify` accepts. -/
def verify_signature {K : Type} (api : Ed25519Api K) (verifyingKey : K)
    (message : List Nat) (signature : List Nat) : Except SignatureError Unit :=
  if api.verify verifyingKey message signature then .ok () else .error .invalidSignature

/-- `AuthenticatedHandshake::verify`: length checks in source order, then
key parsing, then the signature check over the X25519 key bytes. -/
def AuthenticatedHandshake.verify {K : Type} (api : Ed25519Api K)
    (h : AuthenticatedHandshake) : Except SignatureError K :=
  if h.ed25519PublicKey.length ≠ 32 then .error .invalidPublicKey
  else if h.signature.length ≠ 64 then .error .invalidSignature
  else if h.x25519PublicKey.length ≠ 32 then .error .invalidPublicKey
  else
    match api.parseVerifyingKey h.ed25519PublicKey with
    | none => .error .invalidPublicKey
    | some verifyingKey =>
        match verify_signature api verifyingKey h.x25519PublicKey h.signature with
        | .error e => .error e
        | .ok _ => .ok verifyingKey

end SAE

deriving instance DecidableEq for Except

namespace SAE

/-! ## Helper lemmas -/

theorem length_leBytes (k n : Nat) : (leBytes k n).length = k := by
  induction k generalizing n with
  | zero => rfl
  | succ k ih => simp [leBytes, ih]

theorem fromLE_cons (x : Nat) (l : List Nat) : fromLE (x :: l) = x + 256 * fromLE l := rfl

theorem fromLE_leBytes (k n : Nat) : fromLE (leBytes k n) = n % 256 ^ k := by
  induction k generalizing n with
  | zero => simp [leBytes, fromLE]; omega
  | succ k ih =>
      rw [leBytes, fromLE_cons, ih, pow_succ, mul_comm (256 ^ k) 256, Nat.mod_mul]

theorem le_ceil4096 (a : Nat) : a ≤ (a + 4095) / 4096 * 4096 := by omega

theorem ceil4096_min (a m : Nat) (h4 : 4096 ∣ m) (hm : a ≤ m) :
    (a + 4095) / 4096 * 4096 ≤ m := by
  obtain ⟨k, rfl⟩ := h4
  omega

/-- The padded size when the smallest bucket fits. -/
theorem paddedSize_of_le_128 (n : Nat) (h : n + 2 ≤ 128) : paddedSize n = 128 := by
  simp [paddedSize, PADDING_BLOCKS, List.find?, h]

theorem paddedSize_of_le_256 (n : Nat) (h1 : ¬ n + 2 ≤ 128) (h : n + 2 ≤ 256) :
    paddedSize n = 256 := by
  simp [paddedSize, PADDING_BLOCKS, List.find?, h1, h]

theorem paddedSize_of_le_512 (n : Nat) (h1 : ¬ n + 2 ≤ 256) (h : n + 2 ≤ 512) :
    paddedSize n = 512 := by
  have h1' : ¬ n + 2 ≤ 128 := by omega
  simp [paddedSize, PADDING_BLOCKS, List.find?, h1, h1', h]

theorem paddedSize_of_le_1024 (n : Nat) (h1 : ¬ n + 2 ≤ 512) (h : n + 2 ≤ 1024) :
    paddedSize n = 1024 := by
  have h2 : ¬ n + 2 ≤ 128 := by omega
  have h3 : ¬ n + 2 ≤ 256 := by omega
  simp [paddedSize, PADDING_BLOCKS, List.find?, h1, h2, h3, h]

theorem paddedSize_of_le_2048 (n : Nat) (h1 : ¬ n + 2 ≤ 1024) (h : n + 2 ≤ 2048) :
    paddedSize n = 2048 := by
  have h2 : ¬ n + 2 ≤ 128 := by omega
  have h3 : ¬ n + 2 ≤ 256 := by omega
  have h4 : ¬ n + 2 ≤ 512 := by omega
  simp [paddedSize, PADDING_BLOCKS, List.find?, h1, h2, h3, h4, h]

theorem paddedSize_of_le_4096 (n : Nat) (h1 : ¬ n + 2 ≤ 2048) (h : n + 2 ≤ 4096) :
    paddedSize n = 4096 := by
  have h2 : ¬ n + 2 ≤ 128 := by omega
  have h3 : ¬ n + 2 ≤ 256 := by omega
  have h4 : ¬ n + 2 ≤ 512 := by omega
  have h5 : ¬ n + 2 ≤ 1024 := by omega
  simp [paddedSize, PADDING_BLOCKS, List.find?, h1, h2, h3, h4, h5, h]

theorem paddedSize_of_large (n : Nat) (h : ¬ n + 2 ≤ 4096) :
    paddedSize n = (n + 2 + 4095) / 4096 * 4096 := by
  have h2 : ¬ n + 2 ≤ 128 := by omega
  have h3 : ¬ n + 2 ≤ 256 := by omega
  have h4 : ¬ n + 2 ≤ 512 := by omega
  have h5 : ¬ n + 2 ≤ 1024 := by omega
  have h6 : ¬ n + 2 ≤ 2048 := by omega
  simp [paddedSize, PADDING_BLOCKS, List.find?, h, h2, h3, h4, h5, h6]

/-- Every padded size accommodates the payload and the 2-byte prefix. -/
theorem le_paddedSize (n : Nat) : n + 2 ≤ paddedSize n := by
  by_cases h1 : n + 2 ≤ 128
  · rw [paddedSize_of_le_128 n h1]; omega
  · by_cases h2 : n + 2 ≤ 256
    · rw [paddedSize_of_le_256 n h1 h2]; omega
    · by_cases h3 : n + 2 ≤ 512
      · rw [paddedSize_of_le_512 n h2 h3]; omega
      · by_cases h4 : n + 2 ≤ 1024
        · rw [paddedSize_of_le_1024 n h3 h4]; omega
        · by_cases h5 : n + 2 ≤ 2048
          · rw [paddedSize_of_le_2048 n h4 h5]; omega
          · by_cases h6 : n + 2 ≤ 4096
            · rw [paddedSize_of_le_4096 n h5 h6]; omega
            · rw [paddedSize_of_large n h6]; exact le_ceil4096 _

/-- What `add_padding` returns when the payload is not oversized. -/
theorem add_padding_eq (rng : Nat → Nat) (data : List Nat) (h : data.length ≤ 65535) :
    add_padding rng data =
      some (leBytes 2 data.length ++ data ++
        (List.range (paddedSize data.length - data.length - 2)).map (fun i => rng i % 256)) := by
  simp [add_padding, Nat.not_lt.mpr h]

/-- The length of a non-oversized padded payload is exactly the padded size. -/
theorem add_padding_length (rng : Nat → Nat) (data : List Nat) (h : data.length ≤ 65535) :
    ∃ q, add_padding rng data = some q ∧ q.length = paddedSize data.length := by
  refine ⟨_, add_padding_eq rng data h, ?_⟩
  have := le_paddedSize data.length
  simp [length_leBytes]
  omega

/-- `paddedSize` is the smallest fitting bucket when one exists, and the
smallest fitting multiple of 4096 otherwise. -/
theorem paddedSize_spec (n : Nat) :
    (paddedSize n ∈ PADDING_BLOCKS ∧ n + 2 ≤ paddedSize n ∧
      ∀ b ∈ PADDING_BLOCKS, n + 2 ≤ b → paddedSize n ≤ b) ∨
    ((∀ b ∈ PADDING_BLOCKS, b < n + 2) ∧ 4096 ∣ paddedSize n ∧ n + 2 ≤ paddedSize n ∧
      ∀ m, 4096 ∣ m → n + 2 ≤ m → paddedSize n ≤ m) := by
  by_cases h1 : n + 2 ≤ 128
  · rw [paddedSize_of_le_128 n h1]
    refine Or.inl ⟨by simp [PADDING_BLOCKS], by omega, ?_⟩
    intro b hb _
    simp [PADDING_BLOCKS] at hb
    rcases hb with rfl | rfl | rfl | rfl | rfl | rfl <;> omega
  · by_cases h2 : n + 2 ≤ 256
    · rw [paddedSize_of_le_256 n h1 h2]
      refine Or.inl ⟨by simp [PADDING_BLOCKS], by omega, ?_⟩
      intro b hb hble
      simp [PADDING_BLOCKS] at hb
      rcases hb with rfl | rfl | rfl | rfl | rfl | rfl <;> omega
    · by_cases h3 : n + 2 ≤ 512
      · rw [paddedSize_of_le_512 n h2 h3]
        refine Or.inl ⟨by simp [PADDING_BLOCKS], by omega, ?_⟩
        intro b hb hble
        simp [PADDING_BLOCKS] at hb
        rcases hb with rfl | rfl | rfl | rfl | rfl | rfl <;> omega
      · by_cases h4 : n + 2 ≤ 1024
        · rw [paddedSize_of_le_1024 n h3 h4]
          refine Or.inl ⟨by simp [PADDING_BLOCKS], by omega, ?_⟩
          intro b hb hble
          simp [PADDING_BLOCKS] at hb
          rcases hb with rfl | rfl | rfl | rfl | rfl | rfl <;> omega
        · by_cases h5 : n + 2 ≤ 2048
          · rw [paddedSize_of_le_2048 n h4 h5]
            refine Or.inl ⟨by simp [PADDING_BLOCKS], by omega, ?_⟩
            intro b hb hble
            simp [PADDING_BLOCKS] at hb
            rcases hb with rfl | rfl | rfl | rfl | rfl | rfl <;> omega
          · by_cases h6 : n + 2 ≤ 4096
            · rw [paddedSize_of_le_4096 n h5 h6]
              refine Or.inl ⟨by simp [PADDING_BLOCKS], by omega, ?_⟩
              intro b hb hble
              simp [PADDING_BLOCKS] at hb
              rcases hb with rfl | rfl | rfl | rfl | rfl | rfl <;> omega
            · rw [paddedSize_of_large n h6]
              refine Or.inr ⟨?_, dvd_mul_left 4096 _, le_ceil4096 _, ?_⟩
              · intro b hb
                simp [PADDING_BLOCKS] at hb
                rcases hb with rfl | rfl | rfl | rfl | rfl | rfl <;> omega
              · intro m hdvd hle
                exact ceil4096_min _ m hdvd hle

/-! ## Claim C4: oversized payloads -/

/-- Oversized payloads take the `panic!` exit of `add_padding`. -/
theorem add_padding_none_of_long (rng : Nat → Nat) (data : List Nat)
    (h : 65535 < data.length) : add_padding rng data = none := by
  simp [add_padding, h]

/-- C4 counterexample: on a 65536-byte payload `add_padding` takes the
`panic!` exit (modelled `none`) — it crashes rather than returning an
error value. -/
theorem add_padding_65536_panics :
    add_padding (fun _ => 0) (List.replicate 65536 0) = none :=
  add_padding_none_of_long _ _ (by rw [List.length_replicate]; omega)

/-- C4 amended: `add_padding` panics (returns no value) exactly on payloads
longer than 65535 bytes, and succeeds on all others. -/
theorem add_padding_panics_iff (rng : Nat → Nat) (data : List Nat) :
    add_padding rng data = none ↔ 65535 < data.length := by
  by_cases h : 65535 < data.length
  · simp [add_padding, h]
  · simp [add_padding, h]

/-! ## Claim C7: padding round trip -/

/-- C7: for every payload shorter than 65000 bytes and every random filler,
`remove_padding (add_padding p)` succeeds and returns `p`. -/
theorem remove_padding_add_padding (rng : Nat → Nat) (p : List Nat)
    (h : p.length < 65000) :
    ∃ q, add_padding rng p = some q ∧ remove_padding q = .ok p := by
  have h' : p.length ≤ 65535 := by omega
  refine ⟨_, add_padding_eq rng p h', ?_⟩
  have hsize := le_paddedSize p.length
  set filler := (List.range (paddedSize p.length - p.length - 2)).map (fun i => rng i % 256) with hf
  have hlen : (leBytes 2 p.length ++ p ++ filler).length = paddedSize p.length := by
    simp [length_leBytes, hf]
    omega
  have hbytes : leBytes 2 p.length = [p.length % 256, p.length / 256 % 256] := rfl
  rw [remove_padding]
  rw [if_neg (by omega)]
  have hparsed : (leBytes 2 p.length ++ p ++ filler).getD 0 0 +
      256 * (leBytes 2 p.length ++ p ++ filler).getD 1 0 = p.length := by
    rw [hbytes]
    simp [List.getD_cons_zero, List.getD_cons_succ]
    omega
  rw [hparsed]
  rw [if_neg (by omega)]
  have hdrop : (leBytes 2 p.length ++ p ++ filler).drop 2 = p ++ filler := by
    rw [List.append_assoc, List.drop_append_of_le_length (by simp [length_leBytes])]
    simp [length_leBytes, hbytes]
  rw [hdrop]
  simp [List.take_left']

/-- C7 witness at `p = [7, 8, 9]` with zero filler. -/
theorem remove_padding_add_padding_witness :
    [7, 8, 9].length < 65000 ∧
      ∃ q, add_padding (fun _ => 0) [7, 8, 9] = some q ∧
        remove_padding q = .ok [7, 8, 9] :=
  ⟨by decide, remove_padding_add_padding (fun _ => 0) [7, 8, 9] (by decide)⟩

/-! ## Claim C8: bucket sizes -/

/-- C8: for every payload of at most 65535 bytes the padded length is the
smallest bucket that fits `len + 2` or, when none fits, the smallest
multiple of 4096 that does; payloads of lengths 1 and 100 pad to 128
bytes, and length 500 pads to 512 bytes. -/
theorem add_padding_bucket_length :
    (∀ (rng : Nat → Nat) (p : List Nat), p.length ≤ 65535 →
      ∃ q, add_padding rng p = some q ∧
        ((q.length ∈ PADDING_BLOCKS ∧ p.length + 2 ≤ q.length ∧
            ∀ b ∈ PADDING_BLOCKS, p.length + 2 ≤ b → q.length ≤ b) ∨
          ((∀ b ∈ PADDING_BLOCKS, b < p.length + 2) ∧ 4096 ∣ q.length ∧
            p.length + 2 ≤ q.length ∧
            ∀ m, 4096 ∣ m → p.length + 2 ≤ m → q.length ≤ m))) ∧
    (∀ (rng : Nat → Nat) (p : List Nat), p.length = 1 →
      ∃ q, add_padding rng p = some q ∧ q.length = 128) ∧
    (∀ (rng : Nat → Nat) (p : List Nat), p.length = 100 →
      ∃ q, add_padding rng p = some q ∧ q.length = 128) ∧
    (∀ (rng : Nat → Nat) (p : List Nat), p.length = 500 →
      ∃ q, add_padding rng p = some q ∧ q.length = 512) := by
  refine ⟨?_, ?_, ?_, ?_⟩
  · intro rng p hp
    obtain ⟨q, hq, hlen⟩ := add_padding_length rng p hp
    exact ⟨q, hq, hlen ▸ paddedSize_spec p.length⟩
  · intro rng p hp
    obtain ⟨q, hq, hlen⟩ := add_padding_length rng p (by omega)
    exact ⟨q, hq, by rw [hlen, hp, paddedSize_of_le_128 1 (by omega)]⟩
  · intro rng p hp
    obtain ⟨q, hq, hlen⟩ := add_padding_length rng p (by omega)
    exact ⟨q, hq, by rw [hlen, hp, paddedSize_of_le_128 100 (by omega)]⟩
  · intro rng p hp
    obtain ⟨q, hq, hlen⟩ := add_padding_length rng p (by omega)
    exact ⟨q, hq, by rw [hlen, hp, paddedSize_of_le_512 500 (by omega) (by omega)]⟩

/-- C8 witness: the bucket theorem applied at a length-500 payload. -/
theorem add_padding_bucket_length_witness :
    (List.replicate 500 7).length = 500 ∧
      ∃ q, add_padding (fun _ => 0) (List.replicate 500 7) = some q ∧ q.length = 512 :=
  ⟨by rw [List.length_replicate],
   add_padding_bucket_length.2.2.2 (fun _ => 0) (List.replicate 500 7)
     (by rw [List.length_replicate])⟩

/-! ## Claim C10: RatchetMessage wire round trip -/

/-- C10: serializing then parsing a message whose fields fit their wire
widths recovers it, and `from_bytes` rejects truncated buffers — both a
buffer shorter than the 20-byte header and one shorter than the header
plus the declared ciphertext length — with `InvalidMessage`. -/
theorem ratchet_message_wire_roundtrip :
    (∀ m : RatchetMessage, m.counter < U64MOD → m.timestamp < U64MOD →
      m.ciphertext.length < 4294967296 →
      RatchetMessage.fromBytes m.toBytes = .ok m) ∧
    (∀ bs : List Nat, bs.length < 20 →
      RatchetMessage.fromBytes bs = .error .invalidMessage) ∧
    (∀ bs : List Nat, 20 ≤ bs.length → bs.length < 20 + fromLE ((bs.drop 16).take 4) →
      RatchetMessage.fromBytes bs = .error .invalidMessage) := by
  refine ⟨?_, ?_, ?_⟩
  · intro m hc ht hl
    have hbs : m.toBytes = leBytes 8 m.counter ++ (leBytes 8 m.timestamp ++
        (leBytes 4 m.ciphertext.length ++ m.ciphertext)) := by
      rw [RatchetMessage.toBytes, List.append_assoc, List.append_assoc]
    have hlen : m.toBytes.length = 20 + m.ciphertext.length := by
      rw [hbs]; simp [length_leBytes]; omega
    have htake8 : m.toBytes.take 8 = leBytes 8 m.counter := by
      rw [hbs]; exact List.take_left' (length_leBytes 8 m.counter)
    have hdrop8 : m.toBytes.drop 8 = leBytes 8 m.timestamp ++
        (leBytes 4 m.ciphertext.length ++ m.ciphertext) := by
      rw [hbs]; exact List.drop_left' (length_leBytes 8 m.counter)
    have htake16 : (m.toBytes.drop 8).take 8 = leBytes 8 m.timestamp := by
      rw [hdrop8]; exact List.take_left' (length_leBytes 8 m.timestamp)
    have hdrop16 : m.toBytes.drop 16 = leBytes 4 m.ciphertext.length ++ m.ciphertext := by
      have : m.toBytes.drop 16 = (m.toBytes.drop 8).drop 8 := by
        rw [List.drop_drop]
      rw [this, hdrop8]; exact List.drop_left' (length_leBytes 8 m.timestamp)
    have htake20 : (m.toBytes.drop 16).take 4 = leBytes 4 m.ciphertext.length := by
      rw [hdrop16]; exact List.take_left' (length_leBytes 4 m.ciphertext.length)
    have hdrop20 : m.toBytes.drop 20 = m.ciphertext := by
      have : m.toBytes.drop 20 = (m.toBytes.drop 16).drop 4 := by
        rw [List.drop_drop]
      rw [this, hdrop16]; exact List.drop_left' (length_leBytes 4 m.ciphertext.length)
    have hcval : fromLE (m.toBytes.take 8) = m.counter := by
      rw [htake8, fromLE_leBytes]
      exact Nat.mod_eq_of_lt (by have : (256:Nat) ^ 8 = U64MOD := by norm_num [U64MOD]
                                 omega)
    have htval : fromLE ((m.toBytes.drop 8).take 8) = m.timestamp := by
      rw [htake16, fromLE_leBytes]
      exact Nat.mod_eq_of_lt (by have : (256:Nat) ^ 8 = U64MOD := by norm_num [U64MOD]
                                 omega)
    have hlval : fromLE ((m.toBytes.drop 16).take 4) = m.ciphertext.length := by
      rw [htake20, fromLE_leBytes]
      exact Nat.mod_eq_of_lt (by norm_num; omega)
    rw [RatchetMessage.fromBytes]
    rw [if_neg (by omega)]
    rw [hlval]
    rw [if_neg (by omega)]
    rw [hcval, htval, hdrop20, List.take_length]
  · intro bs h
    rw [RatchetMessage.fromBytes, if_pos h]
  · intro bs h1 h2
    rw [RatchetMessage.fromBytes, if_neg (by omega), if_pos (by omega)]

/-- C10 witness: the round trip at a concrete message, the short-buffer
rejection at a 3-byte buffer, and the truncated-ciphertext rejection at a
20-byte buffer declaring 5 ciphertext bytes. -/
theorem ratchet_message_wire_roundtrip_witness :
    RatchetMessage.fromBytes (RatchetMessage.toBytes ⟨3, [7, 8], 5⟩) =
        .ok ⟨3, [7, 8], 5⟩ ∧
      RatchetMessage.fromBytes [1, 2, 3] = .error .invalidMessage ∧
      RatchetMessage.fromBytes
          [0, 0, 0, 0, 0, 0, 0, 0, 0, 0, 0, 0, 0, 0, 0, 0, 5, 0, 0, 0] =
        .error .invalidMessage :=
  ⟨ratchet_message_wire_roundtrip.1 ⟨3, [7, 8], 5⟩ (by decide) (by decide) (by decide),
   ratchet_message_wire_roundtrip.2.1 [1, 2, 3] (by decide),
   ratchet_message_wire_roundtrip.2.2
     [0, 0, 0, 0, 0, 0, 0, 0, 0, 0, 0, 0, 0, 0, 0, 0, 5, 0, 0, 0]
     (by decide) (by decide)⟩

/-! ## Claim C9: handshake verification -/

/-- C9: `verify` succeeds with key `vk` exactly when all three fields have
their wire lengths, the embedded Ed25519 key parses to `vk`, and the
signature over the X25519 key bytes checks under `vk`; whenever a field
length is wrong it returns an error. Stated for every implementation of
the Ed25519 primitives. -/
theorem handshake_verify_spec {K : Type} (api : Ed25519Api K)
    (h : AuthenticatedHandshake) :
    (∀ vk : K, h.verify api = .ok vk ↔
      (h.ed25519PublicKey.length = 32 ∧ h.signature.length = 64 ∧
        h.x25519PublicKey.length = 32 ∧
        api.parseVerifyingKey h.ed25519PublicKey = some vk ∧
        api.verify vk h.x25519PublicKey h.signature = true)) ∧
    ((h.ed25519PublicKey.length ≠ 32 ∨ h.signature.length ≠ 64 ∨
        h.x25519PublicKey.length ≠ 32) →
      ∃ e, h.verify api = .error e) := by
  constructor
  · intro vk
    by_cases h1 : h.ed25519PublicKey.length = 32
    · by_cases h2 : h.signature.length = 64
      · by_cases h3 : h.x25519PublicKey.length = 32
        · cases hp : api.parseVerifyingKey h.ed25519PublicKey with
          | none => simp [AuthenticatedHandshake.verify, verify_signature, h1, h2, h3, hp]
          | some vk' =>
              by_cases hs : api.verify vk' h.x25519PublicKey h.signature
              · simp [AuthenticatedHandshake.verify, verify_signature, h1, h2, h3, hp, hs]
                rintro rfl
                exact hs
              · simp [AuthenticatedHandshake.verify, verify_signature, h1, h2, h3, hp, hs]
                intro he
                cases he
                exact Bool.eq_false_iff.mpr hs
        · simp [AuthenticatedHandshake.verify, h1, h2, h3]
      · simp [AuthenticatedHandshake.verify, h1, h2]
    · simp [AuthenticatedHandshake.verify, h1]
  · intro hbad
    rw [AuthenticatedHandshake.verify]
    rcases hbad with h1 | h2 | h3
    · exact ⟨.invalidPublicKey, by rw [if_pos h1]⟩
    · by_cases h1 : h.ed25519PublicKey.length = 32
      · exact ⟨.invalidSignature, by rw [if_neg (by simp [h1]), if_pos h2]⟩
      · exact ⟨.invalidPublicKey, by rw [if_pos h1]⟩
    · by_cases h1 : h.ed25519PublicKey.length = 32
      · by_cases h2 : h.signature.length = 64
        · exact ⟨.invalidPublicKey, by
            rw [if_neg (by simp [h1]), if_neg (by simp [h2]), if_pos h3]⟩
        · exact ⟨.invalidSignature, by rw [if_neg (by simp [h1]), if_pos h2]⟩
      · exact ⟨.invalidPublicKey, by rw [if_pos h1]⟩

/-- A concrete Ed25519 implementation for exercising the handshake
theorems: keys are small naturals, key byte lists of length 32 parse to
key 7, and a signature is accepted when the message has 32 bytes and
the signature 64. -/
def ed25519Toy : Ed25519Api Nat :=
  { parseVerifyingKey := fun bts => if bts.length = 32 then some 7 else none
    verify := fun k m s => k == 7 && m.length == 32 && s.length == 64 }

/-- C9 witness: a well-formed handshake verifies to the parsed key, and a
handshake with a 31-byte Ed25519 key is rejected. -/
theorem handshake_verify_spec_witness :
    AuthenticatedHandshake.verify ed25519Toy
        ⟨List.replicate 32 1, List.replicate 32 2, List.replicate 64 3⟩ = .ok 7 ∧
      ∃ e, AuthenticatedHandshake.verify ed25519Toy
        ⟨List.replicate 32 1, List.replicate 31 2, List.replicate 64 3⟩ = .error e :=
  ⟨((handshake_verify_spec ed25519Toy
      ⟨List.replicate 32 1, List.replicate 32 2, List.replicate 64 3⟩).1 7).mpr
      (by refine ⟨?_, ?_, ?_, ?_, ?_⟩ <;> decide),
   (handshake_verify_spec ed25519Toy
      ⟨List.replicate 32 1, List.replicate 31 2, List.replicate 64 3⟩).2
      (Or.inl (by decide))⟩

/-! ## Claim C3: the timestamp window

The source computes `current_time - message.timestamp` in u64. For a
message whose timestamp lies in the future but inside the permitted
60-second skew, the subtraction wraps below zero, so the age check fires
and the message is rejected as too old instead of being accepted. -/

/-- C3 failing input: at current time 1000, a message stamped 1030 (30
seconds in the future, inside the +60s window the spec accepts) is
rejected with `MessageTooOld` by every session. -/
theorem decrypt_rejects_future_message_in_window (s : RatchetSession) :
    (s.decrypt 1000 { counter := 0, ciphertext := [], timestamp := 1030 }).1 =
      .error .messageTooOld := by
  rw [RatchetSession.decrypt]
  rw [if_neg (by decide), if_pos (by decide)]

/-! ## Decrypt branch lemmas shared by the cache claims -/

theorem skipKeys_fst_length (ck : List Nat) (start n : Nat) :
    ((skipKeys ck start n).1).length = n := by
  induction n generalizing ck start with
  | zero => rfl
  | succ n ih => simp [skipKeys, ih]

/-- An empty ciphertext is shorter than the 16-byte tag, so the AEAD
rejects it whatever the key. -/
theorem decryptWithKey_nil (key : List Nat) (m : RatchetMessage)
    (h : m.ciphertext = []) : decryptWithKey key m = none := by
  rw [decryptWithKey, chachaPolyOpen, h]
  rw [if_pos (by decide)]

/-- A decrypt of an out-of-order message whose AEAD check fails leaves the
chain state alone but keeps the freshly derived skipped keys. -/
theorem decrypt_jump_fail (s : RatchetSession) (now : Nat) (msg : RatchetMessage)
    (ht1 : ¬ u64add now 60 < msg.timestamp)
    (ht2 : ¬ 300 < u64sub now msg.timestamp)
    (hc : s.recvCount < msg.counter)
    (hskip : msg.counter - s.recvCount ≤ MAX_SKIP)
    (hct : msg.ciphertext = []) :
    s.decrypt now msg =
      (.error .decryptionFailed,
       { s with skippedKeys := s.skippedKeys ++
           (skipKeys s.recvChainKey s.recvCount (msg.counter - s.recvCount)).1 }) := by
  rw [RatchetSession.decrypt]
  rw [if_neg ht1, if_neg ht2, if_neg (by omega), if_pos hc, if_neg (by omega)]
  simp only [decryptWithKey_nil _ _ hct]

theorem new_skippedKeys (x : List Nat) : (RatchetSession.new x).skippedKeys = [] := rfl

theorem new_recvCount (x : List Nat) : (RatchetSession.new x).recvCount = 0 := rfl

theorem length_eraseIdx_le {α : Type} (l : List α) (i : Nat) :
    (l.eraseIdx i).length ≤ l.length := by
  induction l generalizing i with
  | nil => simp [List.eraseIdx]
  | cons x xs ih =>
      cases i with
      | zero => simp [List.eraseIdx]
      | succ i => simpa [List.eraseIdx] using ih i

/-! ## Claim C2: the skipped-key cache bound -/

/-- C2 counterexample: two failed decrypts of a counter-100 message on a
fresh session leave 200 entries in `skipped_keys` — the cache is not
bounded by 100. -/
theorem skipped_cache_exceeds_100 :
    100 <
      ((((RatchetSession.new (List.replicate 32 42)).decrypt 1000
          { counter := 100, ciphertext := [], timestamp := 1000 }).2.decrypt 1000
          { counter := 100, ciphertext := [], timestamp := 1000 }).2).skippedKeys.length := by
  have h1 := decrypt_jump_fail (RatchetSession.new (List.replicate 32 42)) 1000
      ⟨100, [], 1000⟩ (by decide) (by decide) (by decide) (by decide) rfl
  rw [h1]
  have h2 := decrypt_jump_fail
      ((RatchetSession.new (List.replicate 32 42)).decrypt 1000 ⟨100, [], 1000⟩).2 1000
      ⟨100, [], 1000⟩ (by decide) (by decide) (by rw [h1]; decide) (by rw [h1]; decide) rfl
  rw [h1] at h2
  rw [h2]
  simp [new_skippedKeys, new_recvCount, List.length_append, skipKeys_fst_length]

/-- C2 amended: a single call adds at most `MAX_SKIP = 100` entries to the
skipped-key cache (larger jumps are rejected), and `encrypt` never touches
it; the total cache size is unbounded across calls. -/
theorem skipped_cache_growth_per_call :
    (∀ (s : RatchetSession) (now : Nat) (msg : RatchetMessage),
      ((s.decrypt now msg).2).skippedKeys.length ≤ s.skippedKeys.length + MAX_SKIP) ∧
    (∀ (s : RatchetSession) (now : Nat) (pt : List Nat),
      ((s.encrypt now pt).2).skippedKeys = s.skippedKeys) := by
  constructor
  · intro s now msg
    by_cases ht1 : u64add now 60 < msg.timestamp
    · simp [RatchetSession.decrypt, ht1]
    · by_cases ht2 : 300 < u64sub now msg.timestamp
      · simp [RatchetSession.decrypt, ht1, ht2]
      · by_cases hc : msg.counter = s.recvCount
        · cases hdw : decryptWithKey (deriveKey s.recvChainKey).1 msg with
          | none => simp [RatchetSession.decrypt, ht1, ht2, hc, hdw]
          | some pt => simp [RatchetSession.decrypt, ht1, ht2, hc, hdw]
        · by_cases hgt : s.recvCount < msg.counter
          · by_cases hmax : MAX_SKIP < msg.counter - s.recvCount
            · simp [RatchetSession.decrypt, ht1, ht2, hc, hgt, hmax]
            · cases hdw : decryptWithKey
                  (deriveKey (skipKeys s.recvChainKey s.recvCount
                    (msg.counter - s.recvCount)).2).1 msg with
              | none =>
                  simp [RatchetSession.decrypt, ht1, ht2, hc, hgt, hmax, hdw,
                    List.length_append, skipKeys_fst_length]
                  omega
              | some pt =>
                  simp [RatchetSession.decrypt, ht1, ht2, hc, hgt, hmax, hdw,
                    List.length_append, skipKeys_fst_length]
                  omega
          · cases hfind : s.skippedKeys.findIdx? (fun kc => kc.2 == msg.counter) with
            | none => simp [RatchetSession.decrypt, ht1, ht2, hc, hgt, hfind]
            | some pos =>
                cases hdw : decryptWithKey ((s.skippedKeys[pos]?.getD ([], 0)).1) msg with
                | none =>
                    simp [RatchetSession.decrypt, ht1, ht2, hc, hgt, hfind, hdw]
                    have := length_eraseIdx_le s.skippedKeys pos
                    omega
                | some pt =>
                    simp [RatchetSession.decrypt, ht1, ht2, hc, hgt, hfind, hdw]
                    have := length_eraseIdx_le s.skippedKeys pos
                    omega
  · intro s now pt
    simp [RatchetSession.encrypt]

/-! ## Claim C5: failed decrypts and session state -/

/-- C5 counterexample: a decrypt that fails AEAD authentication on an
out-of-order message does mutate the session — the skipped-key cache
gains the freshly derived keys. -/
theorem decrypt_failure_mutates_skipped_cache :
    ((RatchetSession.new (List.replicate 32 42)).decrypt 1000
        { counter := 1, ciphertext := [], timestamp := 1000 }).1 =
      .error .decryptionFailed ∧
    (((RatchetSession.new (List.replicate 32 42)).decrypt 1000
        { counter := 1, ciphertext := [], timestamp := 1000 }).2).skippedKeys ≠
      (RatchetSession.new (List.replicate 32 42)).skippedKeys := by
  have h1 := decrypt_jump_fail (RatchetSession.new (List.replicate 32 42)) 1000
      ⟨1, [], 1000⟩ (by decide) (by decide) (by decide) (by decide) rfl
  rw [h1]
  refine ⟨rfl, ?_⟩
  intro hcontra
  have hlen := congrArg List.length hcontra
  simp [new_skippedKeys, new_recvCount, List.length_append, skipKeys_fst_length] at hlen

/-- C5 amended: when `decrypt` returns `DecryptionFailed`, the two chain
keys and both counters are exactly what they were before the call; the
skipped-key cache, however, may have changed. -/
theorem decrypt_failed_preserves_chain_state (s : RatchetSession) (now : Nat)
    (msg : RatchetMessage)
    (h : (s.decrypt now msg).1 = .error .decryptionFailed) :
    ((s.decrypt now msg).2).sendChainKey = s.sendChainKey ∧
    ((s.decrypt now msg).2).sendCount = s.sendCount ∧
    ((s.decrypt now msg).2).recvChainKey = s.recvChainKey ∧
    ((s.decrypt now msg).2).recvCount = s.recvCount := by
  by_cases ht1 : u64add now 60 < msg.timestamp
  · simp [RatchetSession.decrypt, ht1]
  · by_cases ht2 : 300 < u64sub now msg.timestamp
    · simp [RatchetSession.decrypt, ht1, ht2]
    · by_cases hc : msg.counter = s.recvCount
      · cases hdw : decryptWithKey (deriveKey s.recvChainKey).1 msg with
        | none => simp [RatchetSession.decrypt, ht1, ht2, hc, hdw]
        | some pt => simp [RatchetSession.decrypt, ht1, ht2, hc, hdw] at h
      · by_cases hgt : s.recvCount < msg.counter
        · by_cases hmax : MAX_SKIP < msg.counter - s.recvCount
          · simp [RatchetSession.decrypt, ht1, ht2, hc, hgt, hmax]
          · cases hdw : decryptWithKey
                (deriveKey (skipKeys s.recvChainKey s.recvCount
                  (msg.counter - s.recvCount)).2).1 msg with
            | none => simp [RatchetSession.decrypt, ht1, ht2, hc, hgt, hmax, hdw]
            | some pt => simp [RatchetSession.decrypt, ht1, ht2, hc, hgt, hmax, hdw] at h
        · cases hfind : s.skippedKeys.findIdx? (fun kc => kc.2 == msg.counter) with
          | none => simp [RatchetSession.decrypt, ht1, ht2, hc, hgt, hfind]
          | some pos =>
              cases hdw : decryptWithKey ((s.skippedKeys[pos]?.getD ([], 0)).1) msg with
              | none => simp [RatchetSession.decrypt, ht1, ht2, hc, hgt, hfind, hdw]
              | some pt => simp [RatchetSession.decrypt, ht1, ht2, hc, hgt, hfind, hdw] at h

/-- C5 witness: the preserved-chain-state theorem applied to the concrete
failed decrypt of an out-of-order garbage message on a fresh session. -/
theorem decrypt_failed_preserves_chain_state_witness :
    ((((RatchetSession.new (List.replicate 32 42)).decrypt 1000
        { counter := 1, ciphertext := [], timestamp := 1000 }).2).sendChainKey =
      (RatchetSession.new (List.replicate 32 42)).sendChainKey) ∧
    ((((RatchetSession.new (List.replicate 32 42)).decrypt 1000
        { counter := 1, ciphertext := [], timestamp := 1000 }).2).sendCount =
      (RatchetSession.new (List.replicate 32 42)).sendCount) ∧
    ((((RatchetSession.new (List.replicate 32 42)).decrypt 1000
        { counter := 1, ciphertext := [], timestamp := 1000 }).2).recvChainKey =
      (RatchetSession.new (List.replicate 32 42)).recvChainKey) ∧
    ((((RatchetSession.new (List.replicate 32 42)).decrypt 1000
        { counter := 1, ciphertext := [], timestamp := 1000 }).2).recvCount =
      (RatchetSession.new (List.replicate 32 42)).recvCount) :=
  decrypt_failed_preserves_chain_state (RatchetSession.new (List.replicate 32 42)) 1000
    { counter := 1, ciphertext := [], timestamp := 1000 }
    (by rw [decrypt_jump_fail (RatchetSession.new (List.replicate 32 42)) 1000
          ⟨1, [], 1000⟩ (by decide) (by decide) (by decide) (by decide) rfl])

/-! ## The cross-session runs behind claims C1 and C6

`RatchetSession::new` derives the send chain from info label
`sae-ratchet-send` and the receive chain from `sae-ratchet-recv` on both
peers, so a receiver's receive chain never equals a sender's send chain:
the message keys disagree and AEAD authentication fails. The theorems
below run the embedded code — real HKDF-SHA256 and ChaCha20-Poly1305 —
on the spec's own scenario (shared secret `[42u8; 32]`), one derivation
step at a time; every `..._eval` lemma is a closed kernel computation. -/

/-- The shared secret `[42u8; 32]` of the spec's end-to-end scenario. -/
def secret42 : List Nat := List.replicate 32 42

/-- The send chain key of a session built from `[42u8; 32]`. -/
def ckSend0 : List Nat :=
  [155, 73, 241, 253, 237, 121, 144, 86, 167, 100, 5, 59, 45, 195, 188, 65,
   88, 150, 179, 103, 26, 114, 230, 133, 97, 22, 207, 70, 90, 91, 60, 191]

/-- Message key 0 of the send chain. -/
def mkSend0 : List Nat :=
  [16, 5, 148, 190, 203, 121, 119, 141, 242, 135, 65, 34, 93, 165, 221, 111,
   15, 107, 219, 27, 160, 78, 59, 230, 211, 178, 87, 95, 57, 48, 30, 200]

/-- Send chain key after one step. -/
def ckSend1 : List Nat :=
  [12, 56, 148, 214, 137, 207, 24, 239, 29, 70, 124, 244, 157, 1, 94, 228,
   234, 250, 237, 58, 34, 182, 146, 5, 7, 110, 44, 56, 60, 5, 248, 165]

/-- Message key 1 of the send chain. -/
def mkSend1 : List Nat :=
  [158, 27, 133, 158, 46, 151, 242, 70, 73, 174, 198, 114, 221, 166, 97, 205,
   208, 119, 211, 58, 87, 19, 249, 167, 42, 207, 213, 94, 91, 90, 26, 6]

/-- Send chain key after two steps. -/
def ckSend2 : List Nat :=
  [43, 199, 222, 101, 184, 132, 219, 186, 61, 141, 107, 11, 21, 26, 93, 248,
   55, 74, 77, 8, 109, 79, 65, 37, 59, 244, 108, 235, 93, 154, 16, 137]

/-- Message key 2 of the send chain. -/
def mkSend2 : List Nat :=
  [41, 234, 148, 198, 235, 115, 189, 26, 161, 94, 185, 242, 124, 239, 231, 225,
   203, 105, 253, 202, 6, 56, 179, 236, 192, 107, 173, 153, 255, 145, 232, 139]

/-- Send chain key after three steps. -/
def ckSend3 : List Nat :=
  [229, 253, 174, 189, 100, 239, 94, 216, 128, 150, 33, 85, 47, 181, 63, 85,
   180, 42, 202, 200, 40, 48, 3, 173, 194, 96, 233, 187, 26, 104, 3, 77]

/-- The wire ciphertext of `A.encrypt(b"Hello Bob!")` at counter 0. -/
def ct0 : List Nat :=
  [252, 76, 139, 246, 93, 207, 117, 210, 142, 216, 27, 154, 138, 206, 30, 252,
   27, 215, 189, 128, 217, 125, 96, 149, 175, 56]

/-- The wire ciphertext of the sender's `b"msg2"` at counter 2. -/
def ct2 : List Nat :=
  [177, 31, 240, 250, 113, 101, 131, 93, 156, 83, 153, 210, 73, 26, 77, 242,
   186, 91, 70, 121]

/-- The receive chain key of a session built from `[42u8; 32]`. -/
def rkRecv0 : List Nat :=
  [206, 176, 187, 38, 132, 212, 42, 231, 189, 18, 223, 207, 129, 4, 94, 174,
   56, 145, 20, 136, 158, 105, 95, 249, 101, 155, 184, 142, 180, 104, 171, 160]

/-- Message key 0 of the receive chain. -/
def mkRecv0 : List Nat :=
  [58, 96, 131, 21, 134, 176, 106, 128, 182, 120, 163, 159, 146, 7, 188, 132,
   35, 148, 123, 99, 119, 208, 110, 56, 108, 44, 91, 169, 136, 232, 100, 99]

/-- Receive chain key after one step. -/
def rkRecv1 : List Nat :=
  [145, 83, 125, 247, 41, 30, 82, 18, 103, 125, 121, 102, 172, 4, 11, 44,
   180, 80, 80, 69, 73, 138, 171, 17, 132, 135, 212, 91, 96, 108, 172, 177]

/-- Message key 1 of the receive chain. -/
def mkRecv1 : List Nat :=
  [167, 104, 241, 233, 145, 209, 154, 18, 238, 128, 83, 28, 193, 177, 56, 61,
   142, 1, 76, 199, 165, 65, 33, 127, 110, 18, 255, 185, 98, 95, 32, 106]

/-- Receive chain key after two steps. -/
def rkRecv2 : List Nat :=
  [152, 184, 186, 126, 158, 238, 224, 27, 37, 254, 150, 143, 35, 160, 255, 166,
   93, 157, 158, 8, 177, 213, 144, 162, 54, 182, 100, 206, 25, 226, 85, 25]

/-- Message key 2 of the receive chain. -/
def mkRecv2 : List Nat :=
  [98, 203, 123, 67, 156, 149, 200, 241, 54, 221, 152, 33, 21, 173, 162, 88,
   79, 247, 64, 15, 165, 130, 72, 233, 178, 10, 91, 130, 136, 9, 147, 237]

/-- Receive chain key after three steps. -/
def rkRecv3 : List Nat :=
  [77, 167, 128, 49, 224, 241, 80, 82, 136, 224, 221, 218, 167, 47, 121, 185,
   90, 243, 5, 209, 113, 155, 70, 166, 201, 194, 90, 22, 184, 234, 152, 211]

theorem new_sendChainKey (x : List Nat) :
    (RatchetSession.new x).sendChainKey = hkdf32 x HKDF_INFO_SEND := by
  simp only [RatchetSession.new]

theorem new_recvChainKey (x : List Nat) :
    (RatchetSession.new x).recvChainKey = hkdf32 x HKDF_INFO_RECV := by
  simp only [RatchetSession.new]

theorem new_sendCount (x : List Nat) : (RatchetSession.new x).sendCount = 0 := rfl

/-- `encrypt` written out: the message under the current message key and
counter, and the session with the send chain advanced. -/
theorem encrypt_eq (s : RatchetSession) (now : Nat) (plaintext : List Nat) :
    s.encrypt now plaintext =
      ({ counter := s.sendCount
         ciphertext := chachaPolySeal (deriveKey s.sendChainKey).1
           (generateNonce s.sendCount) plaintext
         timestamp := now },
       { s with sendChainKey := (deriveKey s.sendChainKey).2
                sendCount := s.sendCount + 1 }) := rfl

/-- An in-order decrypt whose AEAD check fails returns `DecryptionFailed`
and leaves the session untouched. -/
theorem decrypt_inorder_fail (s : RatchetSession) (now : Nat) (msg : RatchetMessage)
    (ht1 : ¬ u64add now 60 < msg.timestamp)
    (ht2 : ¬ 300 < u64sub now msg.timestamp)
    (hc : msg.counter = s.recvCount)
    (hdw : decryptWithKey (deriveKey s.recvChainKey).1 msg = none) :
    s.decrypt now msg = (.error .decryptionFailed, s) := by
  rw [RatchetSession.decrypt, if_neg ht1, if_neg ht2, if_pos hc]
  simp only [hdw]

/-- An out-of-order decrypt whose AEAD check fails returns
`DecryptionFailed` with only the skipped-key cache extended. -/
theorem decrypt_jump_fail_of_dw (s : RatchetSession) (now : Nat) (msg : RatchetMessage)
    (ht1 : ¬ u64add now 60 < msg.timestamp)
    (ht2 : ¬ 300 < u64sub now msg.timestamp)
    (hc : s.recvCount < msg.counter)
    (hskip : msg.counter - s.recvCount ≤ MAX_SKIP)
    (hdw : decryptWithKey
        (deriveKey (skipKeys s.recvChainKey s.recvCount (msg.counter - s.recvCount)).2).1
        msg = none) :
    s.decrypt now msg =
      (.error .decryptionFailed,
       { s with skippedKeys := s.skippedKeys ++
           (skipKeys s.recvChainKey s.recvCount (msg.counter - s.recvCount)).1 }) := by
  rw [RatchetSession.decrypt]
  rw [if_neg ht1, if_neg ht2, if_neg (by omega), if_pos hc, if_neg (by omega)]
  simp only [hdw]

set_option maxRecDepth 10000 in
set_option maxHeartbeats 10000000 in
theorem hkdf_send_eval : hkdf32 secret42 HKDF_INFO_SEND = ckSend0 := by decide

set_option maxRecDepth 10000 in
set_option maxHeartbeats 10000000 in
theorem hkdf_recv_eval : hkdf32 secret42 HKDF_INFO_RECV = rkRecv0 := by decide

set_option maxRecDepth 10000 in
set_option maxHeartbeats 10000000 in
theorem derive_send0_eval : deriveKey ckSend0 = (mkSend0, ckSend1) := by decide

set_option maxRecDepth 10000 in
set_option maxHeartbeats 10000000 in
theorem derive_send1_eval : deriveKey ckSend1 = (mkSend1, ckSend2) := by decide

set_option maxRecDepth 10000 in
set_option maxHeartbeats 10000000 in
theorem derive_send2_eval : deriveKey ckSend2 = (mkSend2, ckSend3) := by decide

set_option maxRecDepth 10000 in
set_option maxHeartbeats 10000000 in
theorem derive_recv0_eval : deriveKey rkRecv0 = (mkRecv0, rkRecv1) := by decide

set_option maxRecDepth 10000 in
set_option maxHeartbeats 10000000 in
theorem derive_recv1_eval : deriveKey rkRecv1 = (mkRecv1, rkRecv2) := by decide

set_option maxRecDepth 10000 in
set_option maxHeartbeats 10000000 in
theorem derive_recv2_eval : deriveKey rkRecv2 = (mkRecv2, rkRecv3) := by decide

set_option maxRecDepth 10000 in
set_option maxHeartbeats 10000000 in
theorem seal0_eval :
    chachaPolySeal mkSend0 (generateNonce 0)
      [72, 101, 108, 108, 111, 32, 66, 111, 98, 33] = ct0 := by decide

set_option maxRecDepth 10000 in
set_option maxHeartbeats 10000000 in
theorem seal2_eval :
    chachaPolySeal mkSend2 (generateNonce 2) [109, 115, 103, 50] = ct2 := by decide

set_option maxRecDepth 10000 in
set_option maxHeartbeats 10000000 in
theorem open0_eval : chachaPolyOpen mkRecv0 (generateNonce 0) ct0 = none := by decide

set_option maxRecDepth 10000 in
set_option maxHeartbeats 10000000 in
theorem open2_eval : chachaPolyOpen mkRecv2 (generateNonce 2) ct2 = none := by decide

/-- The two skipped keys the receiver derives when the counter-2 message
arrives first. -/
theorem skipKeys_recv_eval :
    skipKeys rkRecv0 0 2 = ([(mkRecv0, 0), (mkRecv1, 1)], rkRecv2) := by
  show skipKeys rkRecv0 0 (1 + 1) = _
  rw [skipKeys, derive_recv0_eval]
  rw [show (1 : Nat) = 0 + 1 from rfl, skipKeys, derive_recv1_eval]
  rfl

/-! ## Claim C1: the cross-session scenario -/

/-- C1 failing run: with both sessions built from `[42u8; 32]`, B's
decrypt of `A.encrypt(b"Hello Bob!")` (current timestamps) returns
`DecryptionFailed`, where the claim — and the repository's own
`test_ratchet_basic` — requires `Ok(b"Hello Bob!")`. -/
theorem cross_session_decrypt_fails :
    (((RatchetSession.new secret42).decrypt 1000
      (((RatchetSession.new secret42).encrypt 1000
        [72, 101, 108, 108, 111, 32, 66, 111, 98, 33]).1)).1
      = .error .decryptionFailed) := by
  have hmsg : (((RatchetSession.new secret42).encrypt 1000
      [72, 101, 108, 108, 111, 32, 66, 111, 98, 33]).1) =
      { counter := 0, ciphertext := ct0, timestamp := 1000 } := by
    rw [encrypt_eq]
    simp [new_sendChainKey, new_sendCount, hkdf_send_eval, derive_send0_eval, seal0_eval]
  rw [hmsg]
  rw [decrypt_inorder_fail _ 1000 _ (by decide) (by decide) (by decide)
      (by simp [decryptWithKey, new_recvChainKey, hkdf_recv_eval,
            derive_recv0_eval, open0_eval])]

/-! ## Claim C6: out-of-order delivery across sessions -/

/-- C6 failing run: the sender (fresh session from `[42u8; 32]`) emits
messages `b"msg0"`, `b"msg1"`, `b"msg2"` with counters 0, 1, 2; the
receiver (fresh session from the same secret) processes the counter-2
message first and gets `DecryptionFailed` instead of its plaintext, for
the same chain-derivation reason as C1. -/
theorem out_of_order_cross_decrypt_fails :
    ((RatchetSession.new secret42).decrypt 1000
      ((((RatchetSession.new secret42).encrypt 1000
          [109, 115, 103, 48]).2.encrypt 1000
          [109, 115, 103, 49]).2.encrypt 1000
          [109, 115, 103, 50]).1).1
      = .error .decryptionFailed := by
  have hmsg2 : ((((RatchetSession.new secret42).encrypt 1000
          [109, 115, 103, 48]).2.encrypt 1000
          [109, 115, 103, 49]).2.encrypt 1000
          [109, 115, 103, 50]).1 =
      { counter := 2, ciphertext := ct2, timestamp := 1000 } := by
    simp [encrypt_eq, new_sendChainKey, new_sendCount, hkdf_send_eval,
      derive_send0_eval, derive_send1_eval, derive_send2_eval, seal2_eval]
  rw [hmsg2]
  rw [decrypt_jump_fail_of_dw _ 1000 _ (by decide) (by decide) (by decide) (by decide)
      (by simp [decryptWithKey, new_recvChainKey, new_recvCount, hkdf_recv_eval,
            skipKeys_recv_eval, derive_recv2_eval, open2_eval])]

end SAE
